import Mathlib

/-!
Shallow embedding of `cmd/fscrypt/errors.go` from the fscrypt repository:
the top-level error values, the suggestion table `getErrorSuggestions`,
the exit-error constructors `newExitError` and `usageError`, and
`checkRequiredFlags`.

The file `errors.go` reads a handful of names defined elsewhere in the
repository (the flag values and `shortDisplay` from `flags.go`, the text
wrapper `wrapText`, `metadata.PolicyKeyLen`, the error values of the
`filesystem`, `metadata` and `actions` packages, the program name and the
help text rendered by the `cli` package).  Those externals are modelled as
an explicit environment record `Env` threaded through every definition, so
each theorem states exactly which parts of the environment a message can
depend on.  `Env.keyMaterial` stands for any key or passphrase bytes held
elsewhere in the process: no definition below reads it, which is the
code-level fact behind the non-interference statements.
-/

namespace Fscrypt

/-- Environment of `errors.go`: values it reads from the rest of the
repository, plus `keyMaterial` standing for all secret bytes (keys,
passphrases) the process may hold. -/
structure Env where
  policyKeyLen : Nat
  verboseFlagDisplay : String
  nameFlagDisplay : String
  forceFlagDisplay : String
  protectorFlagDisplay : String
  keyFileFlagDisplay : String
  mountpointArg : String
  shortDisplay : String → String
  wrapText : String → Nat → String
  arg0Base : String
  appHelp : String
  commandHelp : String
  keyMaterial : List Nat

/-- The top-level error values declared in the `var (...)` block of
`errors.go` (lines 44-61).  In Go each `errors.New` allocates a fresh,
distinct error identity; the constructors model those identities. -/
inductive TopError where
  | ErrCanceled
  | ErrNoDesctructiveOps
  | ErrMaxPassphrase
  | ErrInvalidSource
  | ErrPassphraseMismatch
  | ErrSpecifyProtector
  | ErrWrongKey
  | ErrSpecifyKeyFile
  | ErrKeyFileLength
  | ErrAllLoadsFailed
  | ErrMustBeRoot
  | ErrPolicyUnlocked
  | ErrBadOwners
  | ErrNotEmptyDir
  | ErrNotPassphrase
  | ErrUnknownUser
  deriving DecidableEq

/-- The message string of each top-level error value, exactly as written in
the `var` block.  `ErrKeyFileLength` is built with
`errors.Errorf("key file must be %d bytes", metadata.PolicyKeyLen)`; every
other message is a string literal. -/
def errMessage (env : Env) : TopError → String
  | .ErrCanceled => "operation canceled"
  | .ErrNoDesctructiveOps => "operation would be destructive"
  | .ErrMaxPassphrase => "max passphrase length exceeded"
  | .ErrInvalidSource => "invalid source type"
  | .ErrPassphraseMismatch => "entered passphrases do not match"
  | .ErrSpecifyProtector => "multiple protectors available"
  | .ErrWrongKey => "incorrect key provided"
  | .ErrSpecifyKeyFile => "no key file specified"
  | .ErrKeyFileLength => "key file must be " ++ Nat.repr env.policyKeyLen ++ " bytes"
  | .ErrAllLoadsFailed => "could not load any protectors"
  | .ErrMustBeRoot => "this command must be run as root"
  | .ErrPolicyUnlocked => "this file or directory is already unlocked"
  | .ErrBadOwners => "you do not own this directory"
  | .ErrNotEmptyDir => "not an empty directory"
  | .ErrNotPassphrase => "protector does not use a passphrase"
  | .ErrUnknownUser => "unknown user"

/-- Root-cause identities an error can have, as compared by the `switch` in
`getErrorSuggestions`: the top-level errors of `errors.go`, the error
values of the `filesystem`, `metadata` and `actions` packages that appear
as `case`s, and `other n` for every further error identity in the program
(the `default` arm of the `switch`). -/
inductive ErrValue where
  | top : TopError → ErrValue
  | FilesystemErrNotSetup
  | MetadataErrEncryptionNotSupported
  | MetadataErrEncryptionNotEnabled
  | ActionsErrBadConfigFile
  | ActionsErrNoConfigFile
  | ActionsErrMissingPolicyMetadata
  | ActionsErrPolicyMetadataMismatch
  | ActionsErrMissingProtectorName
  | other : Nat → ErrValue
  deriving DecidableEq

/-- A Go `error` as seen by `errors.go`: `github.com/pkg/errors` lets an
error wrap another with extra message text while `errors.Cause` recovers
the root value; the model stores the root cause and the full message. -/
structure GoErr where
  cause : ErrValue
  msg : String

/-- `errors.Cause` from `github.com/pkg/errors`: unwraps to the root
cause. -/
def errorsCause (e : GoErr) : ErrValue := e.cause

/-- A top-level error value as a `GoErr` (its own cause, its own
message). -/
def topGoErr (env : Env) (e : TopError) : GoErr :=
  ⟨ErrValue.top e, errMessage env e⟩

/-- `loadHelpText` (errors.go line 63): the linked-filesystem hint,
`fmt.Sprintf` of the verbose flag's short display. -/
def loadHelpText (env : Env) : String :=
  "You may need to mount a linked filesystem. Run with " ++
    env.verboseFlagDisplay ++ " for more information."

/-- The body of `getErrorSuggestions` (errors.go lines 75-120) after the
`errors.Cause` call: the `switch` on the cause value.  The multi-line
suggestion texts are Go raw string literals and keep the file's newlines
and tab indentation; the `fmt.Sprintf` cases interpolate the short display
of the named flag (or `mountpointArg`).  The final arm is the `default:
return ""`. -/
def getErrorSuggestionsCause (env : Env) : ErrValue → String
  | .FilesystemErrNotSetup =>
      "Run \"fscrypt setup " ++ env.mountpointArg ++
        "\" to use fscrypt on this filesystem."
  | .MetadataErrEncryptionNotSupported =>
      "Encryption for this type of filesystem is not supported\n\t\t\ton this kernel version."
  | .MetadataErrEncryptionNotEnabled =>
      "Encryption is either disabled in the kernel config, or\n\t\t\tneeds to be enabled for this filesystem. See the\n\t\t\tdocumentation on how to enable encryption on ext4\n\t\t\tsystems (and the risks of doing so)."
  | .ActionsErrBadConfigFile =>
      "Run \"sudo fscrypt setup\" to recreate the file."
  | .ActionsErrNoConfigFile =>
      "Run \"sudo fscrypt setup\" to create the file."
  | .ActionsErrMissingPolicyMetadata =>
      "This file or directory has either been encrypted with\n\t\t\tanother tool (such as e4crypt) or the corresponding\n\t\t\tfilesystem metadata has been deleted."
  | .ActionsErrPolicyMetadataMismatch =>
      "The metadata for this encrypted directory is in an\n\t\t\tinconsistent state. This most likely means the filesystem\n\t\t\tmetadata is corrupted."
  | .ActionsErrMissingProtectorName =>
      "Use " ++ env.nameFlagDisplay ++ " to specify a protector name."
  | .top .ErrNoDesctructiveOps =>
      "Use " ++ env.forceFlagDisplay ++ " to automatically run destructive operations."
  | .top .ErrSpecifyProtector =>
      "Use " ++ env.protectorFlagDisplay ++ " to specify a protector."
  | .top .ErrSpecifyKeyFile =>
      "Use " ++ env.keyFileFlagDisplay ++ " to specify a key file."
  | .top .ErrBadOwners =>
      "Encryption can only be setup on directories you own,\n\t\t\teven if you have write permission for the directory."
  | .top .ErrNotEmptyDir =>
      "Encryption can only be setup on empty directories; files\n\t\t\tcannot be encrypted in-place. Instead, encrypt an empty\n\t\t\tdirectory, copy the files into that encrypted directory,\n\t\t\tand securely delete the originals with \"shred\"."
  | .top .ErrAllLoadsFailed => loadHelpText env
  | _ => ""

/-- `getErrorSuggestions` (errors.go lines 75-120): switch on
`errors.Cause(err)`. -/
def getErrorSuggestions (env : Env) (err : GoErr) : String :=
  getErrorSuggestionsCause env (errorsCause err)

/-- The cause values enumerated as `case`s of the `switch` in
`getErrorSuggestions`, in source order. -/
def suggestionCases : List ErrValue :=
  [.FilesystemErrNotSetup, .MetadataErrEncryptionNotSupported,
   .MetadataErrEncryptionNotEnabled, .ActionsErrBadConfigFile,
   .ActionsErrNoConfigFile, .ActionsErrMissingPolicyMetadata,
   .ActionsErrPolicyMetadataMismatch, .ActionsErrMissingProtectorName,
   .top .ErrNoDesctructiveOps, .top .ErrSpecifyProtector,
   .top .ErrSpecifyKeyFile, .top .ErrBadOwners, .top .ErrNotEmptyDir,
   .top .ErrAllLoadsFailed]

/-- A sample environment used to instantiate universally quantified
theorems on concrete values (the repository's `metadata.PolicyKeyLen` is
64; the flag displays follow `shortDisplay`'s `--name` format). -/
def defaultEnv : Env where
  policyKeyLen := 64
  verboseFlagDisplay := "--verbose"
  nameFlagDisplay := "--name"
  forceFlagDisplay := "--force"
  protectorFlagDisplay := "--protector"
  keyFileFlagDisplay := "--key"
  mountpointArg := "MOUNTPOINT"
  shortDisplay := fun name => "--" ++ name
  wrapText := fun s _ => s
  arg0Base := "fscrypt"
  appHelp := "NAME:\n   fscrypt - manage linux filesystem encryption"
  commandHelp := "NAME:\n   fscrypt setup - perform global setup"
  keyMaterial := []

/-- Destination of help output: either some writer of the application or
the fresh `bytes.Buffer` allocated inside `usageError.ExitCode`. -/
inductive WriterTarget where
  | writer : Nat → WriterTarget
  | helpBuffer : WriterTarget
  deriving DecidableEq

/-- The slice of `cli.Context` that `errors.go` touches: the help names
read by `getFullName`, the command name, the application's output writer
(mutated and restored by `usageError.ExitCode`), and `rest` abstracting
every other field (none of which `errors.go` writes). -/
structure Context where
  commandHelpName : String
  appHelpName : String
  commandName : String
  appWriter : WriterTarget
  rest : Nat

/-- `getFullName` (errors.go lines 66-71): the command's help name when
nonempty, else the application's. -/
def getFullName (c : Context) : String :=
  if c.commandHelpName ≠ "" then c.commandHelpName else c.appHelpName

/-- `failureExitCode` (errors.go line 41). -/
def failureExitCode : Nat := 1

/-- The value built by `cli.NewExitError(message, exitCode)`: a message
plus the exit code the process will return. -/
structure ExitError where
  message : String
  code : Nat

/-- `newExitError` (errors.go lines 125-135): prepends the full command
name, wraps the error text, appends the wrapped suggestion when one
exists, and carries `failureExitCode`. -/
def newExitError (env : Env) (c : Context) (err : GoErr) : ExitError :=
  let fullNamePre := getFullName c ++ ": "
  let message := fullNamePre ++ env.wrapText err.msg fullNamePre.length
  let message :=
    if getErrorSuggestions env err ≠ "" then
      message ++ "\n\n" ++ env.wrapText (getErrorSuggestions env err) 0
    else message
  ⟨message, failureExitCode⟩

/-- `usageError` (errors.go lines 139-142): a context pointer and a
message. -/
structure usageError where
  c : Context
  message : String

/-- `usageError.Error` (errors.go lines 144-146). -/
def usageErrorError (u : usageError) : String :=
  getFullName u.c ++ ": " ++ u.message

/-- The effect of `buf.ReadBytes('\n')` followed by `buf.WriteTo`: the
bytes written out are those after the first newline (nothing when the text
has no newline, since `ReadBytes` then consumes the whole buffer). -/
def dropThroughNewline (s : String) : String :=
  String.mk ((s.data.dropWhile (fun ch => ch != '\n')).drop 1)

/-- The state of the stored context while help text is rendered inside
`usageError.ExitCode`: `u.c.App.Writer = buf`. -/
def redirectWriter (c : Context) : Context :=
  { c with appWriter := WriterTarget.helpBuffer }

/-- `usageError.ExitCode` (errors.go lines 151-169): redirects the
application writer to a fresh buffer, renders the application help (when
the full name is the program's base name) or the command help, strips the
first line, writes the remainder to the old writer, restores the writer
and returns `failureExitCode`.  Result: (exit code, final state of the
stored context, text written to the old writer). -/
def usageErrorExitCode (env : Env) (u : usageError) : Nat × Context × String :=
  let oldWriter := u.c.appWriter
  let c1 := redirectWriter u.c
  let helpText := if getFullName c1 = env.arg0Base then env.appHelp else env.commandHelp
  let printed := dropThroughNewline helpText
  let c2 := { c1 with appWriter := oldWriter }
  (failureExitCode, c2, printed)

/-- `stringFlag` from `flags.go`: the fields `errors.go` reads (`Value`,
plus the name `shortDisplay` formats). -/
structure stringFlag where
  name : String
  value : String

/-- `checkRequiredFlags` (errors.go lines 191-199): scans the flags in
order and returns a `usageError` naming the first flag whose `Value` is
empty, or `none` when every flag has a nonempty value. -/
def checkRequiredFlags (env : Env) (c : Context) : List stringFlag → Option usageError
  | [] => none
  | flag :: rest =>
      if flag.value = "" then
        some ⟨c, "required flag " ++ env.shortDisplay flag.name ++ " not provided"⟩
      else checkRequiredFlags env c rest

/-- Modelled from the spec: the gate on destructive operations (§3
"destroyed only by explicit destroy action after a destructiveness
confirmation gate", §4.4 `destroy`) is not under `src/`; its failure value
`ErrNoDesctructiveOps` is (errors.go line 46).  An operation that would be
destructive fails with `ErrNoDesctructiveOps` unless the force override is
given. -/
def destructiveOpGate (force : Bool) (wouldBeDestructive : Bool) : Option TopError :=
  if wouldBeDestructive && !force then some TopError.ErrNoDesctructiveOps
  else none

lemma keyFileMessage_head (s : String) :
    (("key file must be " ++ s) ++ " bytes").data.head? = some 'k' := by
  obtain ⟨l⟩ := s
  rfl

lemma keyFileMessage_ne (s m : String) (hm : m.data.head? ≠ some 'k') :
    ("key file must be " ++ s ++ " bytes") ≠ m := by
  intro h
  exact hm (h ▸ keyFileMessage_head s)

lemma errMessage_head_ne (env : Env) (e : TopError)
    (he : e ≠ TopError.ErrKeyFileLength) :
    (errMessage env e).data.head? ≠ some 'k' := by
  cases e <;> first | exact absurd rfl he | (simp only [errMessage]; decide)

/-- All sixteen top-level error messages are pairwise distinct, whatever
value `metadata.PolicyKeyLen` has: the fifteen literals differ from each
other, and only `ErrKeyFileLength`'s message starts with the letter k. -/
lemma errMessage_injective (env : Env) :
    ∀ e₁ e₂ : TopError, errMessage env e₁ = errMessage env e₂ → e₁ = e₂ := by
  intro e₁ e₂
  by_cases h₁ : e₁ = TopError.ErrKeyFileLength <;>
    by_cases h₂ : e₂ = TopError.ErrKeyFileLength
  · intro _
    rw [h₁, h₂]
  · subst h₁
    intro h
    exact absurd h
      (keyFileMessage_ne (Nat.repr env.policyKeyLen) _ (errMessage_head_ne env e₂ h₂))
  · subst h₂
    intro h
    exact absurd h.symm
      (keyFileMessage_ne (Nat.repr env.policyKeyLen) _ (errMessage_head_ne env e₁ h₁))
  · cases e₁ <;> cases e₂ <;>
      first
        | (intro _; rfl)
        | exact absurd rfl h₁
        | exact absurd rfl h₂
        | (simp only [errMessage]; intro h; exact absurd h (by decide))

/-- C1: every top-level error message and every suggestion string returned
by `getErrorSuggestions` is a fixed string that neither contains nor
depends on any key material or passphrase bytes; the only variable datum
appearing in any such message is `metadata.PolicyKeyLen` interpolated into
`ErrKeyFileLength`. -/
theorem spec_C1 (env : Env) (n : Nat) (ks : List Nat) :
    (∀ e : TopError, e ≠ TopError.ErrKeyFileLength →
        errMessage { env with policyKeyLen := n, keyMaterial := ks } e
          = errMessage env e)
    ∧ errMessage { env with policyKeyLen := n, keyMaterial := ks }
        TopError.ErrKeyFileLength
        = "key file must be " ++ Nat.repr n ++ " bytes"
    ∧ (∀ err : GoErr,
        getErrorSuggestions { env with policyKeyLen := n, keyMaterial := ks } err
          = getErrorSuggestions env err) := by
  refine ⟨?_, rfl, ?_⟩
  · intro e he
    cases e <;> first | rfl | exact absurd rfl he
  · intro err
    obtain ⟨cause, msg⟩ := err
    cases cause <;> rfl

/-- Witness for C1 at a concrete environment, concrete secret bytes and
concrete errors. -/
theorem spec_C1_witness :
    errMessage { defaultEnv with policyKeyLen := 7, keyMaterial := [1, 2, 3] }
        TopError.ErrWrongKey
      = errMessage defaultEnv TopError.ErrWrongKey
    ∧ errMessage { defaultEnv with policyKeyLen := 7, keyMaterial := [1, 2, 3] }
        TopError.ErrKeyFileLength
      = "key file must be " ++ Nat.repr 7 ++ " bytes" :=
  ⟨(spec_C1 defaultEnv 7 [1, 2, 3]).1 TopError.ErrWrongKey (by decide),
   (spec_C1 defaultEnv 7 [1, 2, 3]).2.1⟩

/-- C3: `ErrWrongKey` and `ErrAllLoadsFailed` are distinct error values
with distinct messages; `getErrorSuggestions` maps an error whose cause is
`ErrAllLoadsFailed` to the linked-filesystem hint `loadHelpText` and one
whose cause is `ErrWrongKey` to the empty suggestion. -/
theorem spec_C3 (env : Env) (e₁ e₂ : GoErr) :
    TopError.ErrWrongKey ≠ TopError.ErrAllLoadsFailed
    ∧ errMessage env TopError.ErrWrongKey ≠ errMessage env TopError.ErrAllLoadsFailed
    ∧ loadHelpText env
        = "You may need to mount a linked filesystem. Run with " ++
            env.verboseFlagDisplay ++ " for more information."
    ∧ (errorsCause e₁ = ErrValue.top TopError.ErrAllLoadsFailed →
        getErrorSuggestions env e₁ = loadHelpText env)
    ∧ (errorsCause e₂ = ErrValue.top TopError.ErrWrongKey →
        getErrorSuggestions env e₂ = "") := by
  refine ⟨by decide, by simp only [errMessage]; decide, rfl, ?_, ?_⟩
  · intro h
    obtain ⟨cause, msg⟩ := e₁
    simp only [errorsCause] at h
    subst h
    rfl
  · intro h
    obtain ⟨cause, msg⟩ := e₂
    simp only [errorsCause] at h
    subst h
    rfl

/-- Witness for C3 at two concrete (wrapped) errors. -/
theorem spec_C3_witness :
    getErrorSuggestions defaultEnv
        ⟨ErrValue.top TopError.ErrAllLoadsFailed,
         "fscrypt unlock: could not load any protectors"⟩
      = loadHelpText defaultEnv
    ∧ getErrorSuggestions defaultEnv
        ⟨ErrValue.top TopError.ErrWrongKey, "incorrect key provided"⟩
      = "" :=
  ⟨(spec_C3 defaultEnv
      ⟨ErrValue.top TopError.ErrAllLoadsFailed,
       "fscrypt unlock: could not load any protectors"⟩
      ⟨ErrValue.top TopError.ErrWrongKey, "incorrect key provided"⟩).2.2.2.1 rfl,
   (spec_C3 defaultEnv
      ⟨ErrValue.top TopError.ErrAllLoadsFailed,
       "fscrypt unlock: could not load any protectors"⟩
      ⟨ErrValue.top TopError.ErrWrongKey, "incorrect key provided"⟩).2.2.2.2 rfl⟩

/-- C4: `getErrorSuggestions` is a function of `errors.Cause` alone — two
errors with the same cause get the same suggestion — and every error whose
cause lies outside the enumerated `case` set gets the empty suggestion. -/
theorem spec_C4 (env : Env) (e₁ e₂ e₃ : GoErr) :
    (errorsCause e₁ = errorsCause e₂ →
        getErrorSuggestions env e₁ = getErrorSuggestions env e₂)
    ∧ (errorsCause e₃ ∉ suggestionCases → getErrorSuggestions env e₃ = "") := by
  constructor
  · intro h
    obtain ⟨c₁, m₁⟩ := e₁
    obtain ⟨c₂, m₂⟩ := e₂
    simp only [errorsCause] at h
    subst h
    rfl
  · intro h
    obtain ⟨c, m⟩ := e₃
    simp only [errorsCause] at h
    cases c with
    | top t => cases t <;> first | rfl | exact absurd (by decide) h
    | other n => rfl
    | FilesystemErrNotSetup => exact absurd (by decide) h
    | MetadataErrEncryptionNotSupported => exact absurd (by decide) h
    | MetadataErrEncryptionNotEnabled => exact absurd (by decide) h
    | ActionsErrBadConfigFile => exact absurd (by decide) h
    | ActionsErrNoConfigFile => exact absurd (by decide) h
    | ActionsErrMissingPolicyMetadata => exact absurd (by decide) h
    | ActionsErrPolicyMetadataMismatch => exact absurd (by decide) h
    | ActionsErrMissingProtectorName => exact absurd (by decide) h

/-- Witness for C4: two wrapped errors sharing the cause `ErrBadOwners`
get one suggestion; an unenumerated cause gets the empty suggestion. -/
theorem spec_C4_witness :
    getErrorSuggestions defaultEnv ⟨ErrValue.top TopError.ErrBadOwners, "ctx a"⟩
      = getErrorSuggestions defaultEnv ⟨ErrValue.top TopError.ErrBadOwners, "ctx b"⟩
    ∧ getErrorSuggestions defaultEnv ⟨ErrValue.other 0, "open /: no such file"⟩ = "" :=
  ⟨(spec_C4 defaultEnv ⟨ErrValue.top TopError.ErrBadOwners, "ctx a"⟩
      ⟨ErrValue.top TopError.ErrBadOwners, "ctx b"⟩
      ⟨ErrValue.other 0, "open /: no such file"⟩).1 rfl,
   (spec_C4 defaultEnv ⟨ErrValue.top TopError.ErrBadOwners, "ctx a"⟩
      ⟨ErrValue.top TopError.ErrBadOwners, "ctx b"⟩
      ⟨ErrValue.other 0, "open /: no such file"⟩).2 (by decide)⟩

/-- C5: a destructive operation fails, when no force override is given,
with `ErrNoDesctructiveOps`; that value is distinct from every other
top-level error value (their messages differ too), and its suggestion
directs the user to the force flag. -/
theorem spec_C5 (env : Env) (e : TopError) :
    destructiveOpGate false true = some TopError.ErrNoDesctructiveOps
    ∧ (e ≠ TopError.ErrNoDesctructiveOps →
        errMessage env e ≠ errMessage env TopError.ErrNoDesctructiveOps)
    ∧ getErrorSuggestionsCause env (ErrValue.top TopError.ErrNoDesctructiveOps)
        = "Use " ++ env.forceFlagDisplay ++
            " to automatically run destructive operations."
    ∧ (∃ pre post,
        getErrorSuggestionsCause env (ErrValue.top TopError.ErrNoDesctructiveOps)
          = pre ++ env.forceFlagDisplay ++ post) := by
  refine ⟨rfl, ?_, rfl,
    ⟨"Use ", " to automatically run destructive operations.", rfl⟩⟩
  intro hne hmsg
  exact hne (errMessage_injective env e TopError.ErrNoDesctructiveOps hmsg)

/-- Witness for C5: `ErrCanceled` has a different message than
`ErrNoDesctructiveOps`, and the gate fires without force. -/
theorem spec_C5_witness :
    destructiveOpGate false true = some TopError.ErrNoDesctructiveOps
    ∧ errMessage defaultEnv TopError.ErrCanceled
        ≠ errMessage defaultEnv TopError.ErrNoDesctructiveOps :=
  ⟨(spec_C5 defaultEnv TopError.ErrCanceled).1,
   (spec_C5 defaultEnv TopError.ErrCanceled).2.1 (by decide)⟩

/-- C6: the three policy-creation failure values `ErrPolicyUnlocked`,
`ErrNotEmptyDir` and `ErrBadOwners` are pairwise distinct (as values and
as messages), and the suggestion for the non-empty-directory condition
states that files cannot be encrypted in-place. -/
theorem spec_C6 (env : Env) :
    List.Pairwise (fun a b => a ≠ b)
      [TopError.ErrPolicyUnlocked, TopError.ErrNotEmptyDir, TopError.ErrBadOwners]
    ∧ List.Pairwise (fun a b => a ≠ b)
      [errMessage env TopError.ErrPolicyUnlocked,
       errMessage env TopError.ErrNotEmptyDir,
       errMessage env TopError.ErrBadOwners]
    ∧ (∃ pre post,
        getErrorSuggestionsCause env (ErrValue.top TopError.ErrNotEmptyDir)
          = pre ++ "cannot be encrypted in-place" ++ post) := by
  refine ⟨by decide, by simp only [errMessage]; decide, ?_⟩
  exact ⟨"Encryption can only be setup on empty directories; files\n\t\t\t",
    ". Instead, encrypt an empty\n\t\t\tdirectory, copy the files into that encrypted directory,\n\t\t\tand securely delete the originals with \"shred\".",
    rfl⟩

/-- C7: dedicated error values exist for the four user-input errors
(invalid source, passphrase mismatch, no key file, ambiguous protector)
and are pairwise distinct; moreover every pair of distinct top-level error
values has distinct messages. -/
theorem spec_C7 (env : Env) (e₁ e₂ : TopError) :
    List.Pairwise (fun a b => a ≠ b)
      [TopError.ErrInvalidSource, TopError.ErrPassphraseMismatch,
       TopError.ErrSpecifyKeyFile, TopError.ErrSpecifyProtector]
    ∧ (e₁ ≠ e₂ → errMessage env e₁ ≠ errMessage env e₂) := by
  refine ⟨by decide, ?_⟩
  intro hne hmsg
  exact hne (errMessage_injective env e₁ e₂ hmsg)

/-- Witness for C7: `ErrInvalidSource` and `ErrUnknownUser` have distinct
messages. -/
theorem spec_C7_witness :
    errMessage defaultEnv TopError.ErrInvalidSource
      ≠ errMessage defaultEnv TopError.ErrUnknownUser :=
  (spec_C7 defaultEnv TopError.ErrInvalidSource TopError.ErrUnknownUser).2 (by decide)

/-- C8: every failure surfaced through the top-level interface reports
exit code 1: `newExitError` always carries `failureExitCode = 1`, and
`usageError.ExitCode` always returns 1. -/
theorem spec_C8 (env : Env) (c : Context) (err : GoErr) (u : usageError) :
    (newExitError env c err).code = failureExitCode
    ∧ (usageErrorExitCode env u).1 = failureExitCode
    ∧ failureExitCode = 1 :=
  ⟨rfl, rfl, rfl⟩

/-- C9: `checkRequiredFlags` returns `none` exactly when every flag in the
list has a nonempty value; otherwise it returns a usage error whose
message names the first flag, in list order, whose value is empty. -/
theorem spec_C9 (env : Env) (c : Context) (flags : List stringFlag) :
    (checkRequiredFlags env c flags = none ↔ ∀ f ∈ flags, f.value ≠ "")
    ∧ (∀ f, flags.find? (fun g => g.value == "") = some f →
        checkRequiredFlags env c flags
          = some ⟨c, "required flag " ++ env.shortDisplay f.name ++ " not provided"⟩) := by
  induction flags with
  | nil =>
      constructor
      · simp [checkRequiredFlags]
      · intro f hf
        simp at hf
  | cons flag rest ih =>
      constructor
      · constructor
        · intro hnone f hf
          by_cases hv : flag.value = ""
          · rw [checkRequiredFlags, if_pos hv] at hnone
            exact Option.noConfusion hnone
          · rw [checkRequiredFlags, if_neg hv] at hnone
            rcases List.mem_cons.mp hf with rfl | hf'
            · exact hv
            · exact (ih.1.mp hnone) f hf'
        · intro hall
          have hv : flag.value ≠ "" := hall flag (List.mem_cons_self _ _)
          rw [checkRequiredFlags, if_neg hv]
          exact ih.1.mpr (fun f hf => hall f (List.mem_cons_of_mem _ hf))
      · intro f hf
        by_cases hv : flag.value = ""
        · rw [List.find?_cons_of_pos _ (by simp [hv])] at hf
          obtain rfl := Option.some.inj hf
          rw [checkRequiredFlags, if_pos hv]
        · rw [List.find?_cons_of_neg _ (by simp [hv])] at hf
          rw [checkRequiredFlags, if_neg hv]
          exact ih.2 f hf

/-- A sample context for instantiating theorems. -/
def sampleContext : Context :=
  ⟨"fscrypt encrypt", "fscrypt", "encrypt", WriterTarget.writer 0, 0⟩

/-- Witness for C9: a list whose flags all have values yields `none`; a
list whose second flag has the empty value yields the usage error naming
that flag. -/
theorem spec_C9_witness :
    checkRequiredFlags defaultEnv sampleContext
        [⟨"protector", "1"⟩, ⟨"key", "/k"⟩] = none
    ∧ checkRequiredFlags defaultEnv sampleContext
        [⟨"protector", "1"⟩, ⟨"key", ""⟩, ⟨"name", ""⟩]
      = some ⟨sampleContext,
          "required flag " ++ defaultEnv.shortDisplay "key" ++ " not provided"⟩ :=
  ⟨(spec_C9 defaultEnv sampleContext [⟨"protector", "1"⟩, ⟨"key", "/k"⟩]).1.mpr
      (by decide),
   (spec_C9 defaultEnv sampleContext
      [⟨"protector", "1"⟩, ⟨"key", ""⟩, ⟨"name", ""⟩]).2 ⟨"key", ""⟩ rfl⟩

/-- C10: `usageError.ExitCode` leaves the stored context unchanged across
the call — the application writer points at the temporary buffer only in
the intermediate state used to render help, and the returned context
equals the entry context in every field. -/
theorem spec_C10 (env : Env) (u : usageError) :
    (usageErrorExitCode env u).2.1 = u.c
    ∧ (redirectWriter u.c).appWriter = WriterTarget.helpBuffer
    ∧ redirectWriter u.c = { u.c with appWriter := WriterTarget.helpBuffer } := by
  refine ⟨?_, rfl, rfl⟩
  obtain ⟨c, m⟩ := u
  obtain ⟨a, b, d, w, r⟩ := c
  rfl

end Fscrypt
